import Mathlib

/-!
Verification of the subscription/billing core of the botsmith backend.

Shallow embedding of:
  backend/services/subscription_duration_calculator.py
  backend/services/subscription_service.py
  backend/routers/razorpay_payment.py (verify_payment success path)

Modelling conventions:
  * `datetime` instants are integer UTC timestamps in seconds;
    `timedelta(days=n)` is `n * 86400` seconds.
  * Within one operation, every call to `datetime.utcnow()` is modelled as
    the single instant `now` passed to the operation (the microsecond drift
    between successive utcnow calls inside one request is below the
    tolerance every spec property is stated with).
  * Mongo collections are lists of documents; `find_one` returns the first
    match; `update_one` with a `$set` rewrites the listed fields of the
    first match, preserving the others; with `upsert=True` a missing match
    inserts a document holding exactly the `$set` fields (absent fields are
    modelled by `none` / default values); `insert_one` appends.
  * Mongo internal object ids are not modelled; the audit-only field
    `subscription_id` copied from `_id` into ledger entries is omitted.
  * `usage` is a free-form dict of counters; modelled as an association
    list from counter name to integer value (`last_reset` stored as the
    integer timestamp).
-/

/-- A document of the `plans` collection (reference data). -/
structure Plan where
  id : String
  name : String
deriving DecidableEq

/-- A document of the `users` collection (only the fields the core writes). -/
structure UserDoc where
  id : String
  plan_id : Option String := none
  updated_at : Option Int := none
deriving DecidableEq

/-- A document of the `subscriptions` collection.  Fields that some writers
never set are `Option` (absent = `none`); `plan_id`/`status` default to the
empty string, matching the `.get(key, fallback)` reads in the source;
`lifetime_access` absent is read as `False` by every consumer. -/
structure Subscription where
  user_id : String
  plan_id : String := ""
  status : String := ""
  started_at : Option Int := none
  expires_at : Option Int := none
  created_at : Option Int := none
  updated_at : Option Int := none
  razorpay_payment_id : Option String := none
  razorpay_subscription_id : Option String := none
  billing_cycle : Option String := none
  auto_renew : Option Bool := none
  action_type : Option String := none
  usage : List (String × Int) := []
  lifetime_access : Bool := false
  admin_changed_by : Option String := none
  admin_change_reason : Option String := none
deriving DecidableEq

/-- The `subscription_data` dict built by `process_payment_idempotent`
(steps 5 and 7 of the source): exactly the keys the service writes and also
records in the ledger as `subscription_result`. -/
structure SubData where
  user_id : String
  plan_id : String
  status : String
  started_at : Int
  expires_at : Int
  razorpay_payment_id : String
  updated_at : Int
  action_type : String
  usage : List (String × Int)
deriving DecidableEq

/-- A document of the `processed_payments` idempotency ledger, as written by
`process_payment_idempotent` (step 7). -/
structure ProcessedPayment where
  payment_id : String
  user_id : String
  plan_id : String
  processed_at : Int
  expires_at : Int
  is_upgrade : Bool
  payment_source : String
  subscription_result : Option SubData
deriving DecidableEq

/-- The database state the subscription core reads and writes. -/
structure DB where
  subscriptions : List Subscription := []
  users : List UserDoc := []
  plans : List Plan := []
  processed_payments : List ProcessedPayment := []
deriving DecidableEq

/-- Model of `timedelta(days=n)` in seconds. -/
def tdDays (n : Int) : Int := n * 86400

/-- Python `str.lower()` as used on the ASCII plan identifiers (defined by
mapping `Char.toLower` over the character list so that the kernel can
evaluate it on literals). -/
def strLower (s : String) : String := String.mk (s.data.map Char.toLower)

/-- Constant `SubscriptionDurationCalculator.FREE_PLAN_DURATION`. -/
def FREE_PLAN_DURATION : Int := 6

/-- Constant `SubscriptionDurationCalculator.PAID_PLAN_DURATION`. -/
def PAID_PLAN_DURATION : Int := 30

/-- Embedding of `SubscriptionDurationCalculator.calculate_expiration`: the renewal
branch fires only when `action_type == "renewal"` and the passed
`current_subscription` is truthy; inside it, an absent or non-future
`expires_at` falls to the fresh-start arm, and both renewal arms use
`PAID_PLAN_DURATION` (30 days) regardless of the plan. -/
def calculate_expiration (action_type : String) (new_plan_id : String)
    (current_subscription : Option Subscription) (now : Int) : Int :=
  let duration_days : Int :=
    if strLower new_plan_id = "free" then FREE_PLAN_DURATION else PAID_PLAN_DURATION
  match action_type, current_subscription with
  | "renewal", some cs =>
    match cs.expires_at with
    | some current_expires =>
      if current_expires > now then current_expires + tdDays PAID_PLAN_DURATION
      else now + tdDays PAID_PLAN_DURATION
    | none => now + tdDays PAID_PLAN_DURATION
  | _, _ => now + tdDays duration_days

/-- Embedding of `SubscriptionDurationCalculator.get_plan_duration`. -/
def get_plan_duration (plan_id : String) : Int :=
  if strLower plan_id = "free" then FREE_PLAN_DURATION else PAID_PLAN_DURATION

/-- Embedding of `SubscriptionDurationCalculator.is_plan_upgrade`. -/
def is_plan_upgrade (old_plan_id new_plan_id : String) : Bool :=
  strLower old_plan_id != strLower new_plan_id

/-- Embedding of `SubscriptionDurationCalculator.calculate_remaining_days`;
the days attribute of a timedelta floors, hence `Int.fdiv`. -/
def calculate_remaining_days (expires_at : Int) (now : Int) : Int :=
  if expires_at ≤ now then 0 else (expires_at - now).fdiv 86400

/-- Lookup find_one on the processed_payments collection keyed by payment_id. -/
def findLedger (l : List ProcessedPayment) (pid : String) : Option ProcessedPayment :=
  l.find? (fun p => p.payment_id == pid)

/-- Lookup find_one on the subscriptions collection keyed by user_id. -/
def findSub (l : List Subscription) (uid : String) : Option Subscription :=
  l.find? (fun s => s.user_id == uid)

/-- Mongo update_one keyed on user_id with upsert=True on the subscriptions
collection: rewrite the first match through `f`, or insert `fresh` when no
document matches. -/
def updateOneUpsertSub : List Subscription → String → (Subscription → Subscription) →
    Subscription → List Subscription
  | [], _, _, fresh => [fresh]
  | s :: rest, uid, f, fresh =>
    if s.user_id == uid then f s :: rest
    else s :: updateOneUpsertSub rest uid f fresh

/-- Mongo update_one keyed on user_id without upsert. -/
def updateOneSub : List Subscription → String → (Subscription → Subscription) →
    List Subscription
  | [], _, _ => []
  | s :: rest, uid, f =>
    if s.user_id == uid then f s :: rest else s :: updateOneSub rest uid f

/-- Mongo update_one on the users collection setting plan_id and updated_at. -/
def updateUserPlan : List UserDoc → String → String → Int → List UserDoc
  | [], _, _, _ => []
  | u :: rest, uid, pid, now =>
    if u.id == uid then { u with plan_id := some pid, updated_at := some now } :: rest
    else u :: updateUserPlan rest uid pid now

/-- The zeroed usage dict written by the service on new/upgrade/admin paths. -/
def serviceZeroUsage (now : Int) : List (String × Int) :=
  [("chatbots_count", 0), ("messages_this_month", 0), ("file_uploads", 0),
   ("last_reset", now)]

/-- Apply the service `$set` payload to an existing subscription document. -/
def applyPaymentSet (sd : SubData) (old : Subscription) : Subscription :=
  { old with
    user_id := sd.user_id, plan_id := sd.plan_id, status := sd.status,
    started_at := some sd.started_at, expires_at := some sd.expires_at,
    razorpay_payment_id := some sd.razorpay_payment_id,
    updated_at := some sd.updated_at, action_type := some sd.action_type,
    usage := sd.usage }

/-- The document an upserting `$set` creates when no match exists. -/
def SubData.toDoc (sd : SubData) : Subscription :=
  applyPaymentSet sd { user_id := sd.user_id }

/-- Return value of `process_payment_idempotent`. -/
inductive PayResult
  | processed (subscription : SubData) (action_type : String) (duration_days : Int)
  | already_processed (subscription : Option SubData) (processed_at : Int)
deriving DecidableEq

/-- True exactly on the processed result. -/
def PayResult.isProcessed : PayResult → Bool
  | .processed _ _ _ => true
  | _ => false

/-- Step 1 of `process_payment_idempotent`: the idempotency lookup, ending
at the first await boundary of the method. -/
def paymentCheck (db : DB) (payment_id : String) : Option PayResult :=
  (findLedger db.processed_payments payment_id).map
    (fun e => .already_processed e.subscription_result e.processed_at)

/-- The `subscription_data` dict steps 2 to 5 of `process_payment_idempotent`
build for a payment not yet in the ledger. -/
def paymentData (db : DB) (payment_id user_id plan_id : String) (now : Int) : SubData :=
  let current := findSub db.subscriptions user_id
  let action_type : String :=
    match current with
    | some cs => if is_plan_upgrade cs.plan_id plan_id then "upgrade" else "renewal"
    | none => "new"
  let expires_at := calculate_expiration action_type plan_id current now
  { user_id := user_id, plan_id := plan_id, status := "active",
    started_at := now, expires_at := expires_at,
    razorpay_payment_id := payment_id, updated_at := now,
    action_type := action_type,
    usage :=
      match action_type == "renewal", current with
      | true, some cs => cs.usage
      | _, _ => serviceZeroUsage now }

/-- The ledger document step 7 of `process_payment_idempotent` inserts. -/
def paymentEntry (db : DB) (payment_id user_id plan_id payment_source : String)
    (now : Int) : ProcessedPayment :=
  let sd := paymentData db payment_id user_id plan_id now
  { payment_id := payment_id, user_id := user_id, plan_id := plan_id,
    processed_at := now, expires_at := sd.expires_at,
    is_upgrade := sd.action_type == "upgrade",
    payment_source := payment_source, subscription_result := some sd }

/-- Steps 2 to 7 of `process_payment_idempotent`: compute, upsert the
subscription, propagate the plan to the user document, append the ledger
entry. -/
def paymentApply (db : DB) (payment_id user_id plan_id payment_source : String)
    (now : Int) : DB × PayResult :=
  let sd := paymentData db payment_id user_id plan_id now
  let duration_days := (sd.expires_at - sd.started_at).fdiv 86400
  ({ db with
      subscriptions := updateOneUpsertSub db.subscriptions user_id
        (applyPaymentSet sd) sd.toDoc,
      users := updateUserPlan db.users user_id plan_id now,
      processed_payments := db.processed_payments ++
        [paymentEntry db payment_id user_id plan_id payment_source now] },
   .processed sd sd.action_type duration_days)

/-- Embedding of `SubscriptionService.process_payment_idempotent`. -/
def process_payment_idempotent (db : DB)
    (payment_id user_id plan_id payment_source : String) (now : Int) :
    DB × PayResult :=
  match paymentCheck db payment_id with
  | some r => (db, r)
  | none => paymentApply db payment_id user_id plan_id payment_source now

/-- Embedding of `SubscriptionService.create_subscription`: a fresh expiration
and unconditionally `insert_one`s a new document. -/
def create_subscription (db : DB) (user_id plan_id : String) (now : Int) :
    DB × Subscription :=
  let expires_at := calculate_expiration "new" plan_id none now
  let doc : Subscription :=
    { user_id := user_id, plan_id := plan_id, status := "active",
      started_at := some now, expires_at := some expires_at,
      created_at := some now, updated_at := some now,
      usage := serviceZeroUsage now }
  ({ db with subscriptions := db.subscriptions ++ [doc] }, doc)

/-- The per-document update of the admin `$set` payload. -/
def adminSet (user_id new_plan_id admin_id reason : String)
    (expires_at : Int) (usage : List (String × Int)) (now : Int)
    (old : Subscription) : Subscription :=
  { old with
    user_id := user_id, plan_id := new_plan_id, status := "active",
    started_at := some now, expires_at := some expires_at,
    updated_at := some now, admin_changed_by := some admin_id,
    admin_change_reason := some reason, usage := usage }

/-- Embedding of `SubscriptionService.admin_change_plan`. -/
def admin_change_plan (db : DB) (user_id new_plan_id admin_id reason : String)
    (now : Int) : DB × Subscription :=
  let current := findSub db.subscriptions user_id
  let expires_at := calculate_expiration "admin_change" new_plan_id none now
  let usage : List (String × Int) :=
    match current with
    | some cs => cs.usage
    | none => serviceZeroUsage now
  ({ db with
      subscriptions := updateOneUpsertSub db.subscriptions user_id
        (adminSet user_id new_plan_id admin_id reason expires_at usage now)
        (adminSet user_id new_plan_id admin_id reason expires_at usage now
          { user_id := user_id }),
      users := updateUserPlan db.users user_id new_plan_id now },
   adminSet user_id new_plan_id admin_id reason expires_at usage now
     { user_id := user_id })

/-- Return value of `check_subscription_status` (fields set only on some
branches are `Option`). -/
structure StatusResult where
  sub_exists : Bool
  is_expired : Bool
  is_expiring_soon : Option Bool := none
  days_remaining : Option Int := none
  expires_at : Option Int := none
  plan_id : Option String := none
  status : Option String := none
deriving DecidableEq

/-- Embedding of `SubscriptionService.check_subscription_status`. -/
def check_subscription_status (db : DB) (user_id : String) (now : Int) :
    StatusResult :=
  match findSub db.subscriptions user_id with
  | none => { sub_exists := false, is_expired := true }
  | some s =>
    match s.expires_at with
    | none => { sub_exists := true, is_expired := true }
    | some e =>
      let d := calculate_remaining_days e now
      { sub_exists := true, is_expired := decide (e ≤ now),
        is_expiring_soon := some (decide (0 < d) && decide (d ≤ 3)),
        days_remaining := some d, expires_at := some e,
        plan_id := some s.plan_id, status := some s.status }

/-- Field expires_at of the stored subscription of a user (outer `none` when the
user has no subscription document). -/
def subExpires (db : DB) (uid : String) : Option (Option Int) :=
  (findSub db.subscriptions uid).map (·.expires_at)

/-- Field usage of the stored subscription of a user. -/
def subUsage (db : DB) (uid : String) : Option (List (String × Int)) :=
  (findSub db.subscriptions uid).map (·.usage)

/-- Field plan_id of the stored subscription of a user. -/
def subPlan (db : DB) (uid : String) : Option String :=
  (findSub db.subscriptions uid).map (·.plan_id)

/-- Number of ledger rows for a payment id. -/
def ledgerCount (l : List ProcessedPayment) (pid : String) : Nat :=
  (l.filter (fun p => p.payment_id == pid)).length

/-- At most one subscription document per `user_id` (decidable phrasing of
the spec invariant: the stored `user_id`s are pairwise distinct). -/
def noDupUser : List Subscription → Bool
  | [] => true
  | s :: rest => rest.all (fun t => t.user_id != s.user_id) && noDupUser rest

/-- Return value of the `verify_payment` handler of
`routers/razorpay_payment.py` (success path; HTTP envelope elided). -/
inductive VerifyResult
  | alreadyVerified (plan_id : String) (expires_at : Option Int)
  | planNotFound
  | success (plan_id : String) (expires_at : Int)
deriving DecidableEq

/-- The zeroed usage dict the `verify_payment` handler writes on insert
(note the key names differ from the service ones). -/
def verifyZeroUsage : List (String × Int) :=
  [("chatbots", 0), ("messages", 0), ("file_uploads", 0),
   ("website_sources", 0), ("text_sources", 0)]

/-- Embedding of `verify_payment` of `routers/razorpay_payment.py`, from the
point where the gateway signature has verified and `plan_id` has been
extracted from the gateway subscription notes.  It dedupes by looking for a
subscription carrying the payment id, then computes the expiration inline
(fresh 30 days unless a case-sensitive same-plan active renewal) and writes
the subscriptions and users collections directly; it never touches the
`processed_payments` ledger and never calls the subscription service. -/
def verify_payment (db : DB)
    (user_id razorpay_payment_id razorpay_subscription_id plan_id : String)
    (now : Int) : DB × VerifyResult :=
  match db.subscriptions.find?
      (fun s => s.razorpay_payment_id == some razorpay_payment_id) with
  | some existing_payment =>
    (db, .alreadyVerified existing_payment.plan_id existing_payment.expires_at)
  | none =>
    match db.plans.find? (fun p => p.id == plan_id) with
    | none => (db, .planNotFound)
    | some _ =>
      let existing_subscription := findSub db.subscriptions user_id
      let is_renewal :=
        match existing_subscription with
        | some es => es.plan_id == plan_id
        | none => false
      let expires_at : Int :=
        match is_renewal, existing_subscription with
        | true, some es =>
          if es.status == "active" then
            match es.expires_at with
            | some current_expires =>
              if current_expires > now then current_expires + tdDays 30
              else now + tdDays 30
            | none => now + tdDays 30
          else now + tdDays 30
        | _, _ => now + tdDays 30
      let setFields : Subscription → Subscription := fun old =>
        { old with
          user_id := user_id, plan_id := plan_id, status := "active",
          started_at := some now, expires_at := some expires_at,
          billing_cycle := some "monthly", auto_renew := some true,
          razorpay_subscription_id := some razorpay_subscription_id,
          razorpay_payment_id := some razorpay_payment_id,
          updated_at := some now }
      let subs :=
        match existing_subscription with
        | some _ => updateOneSub db.subscriptions user_id setFields
        | none =>
          let fresh := setFields { user_id := user_id }
          db.subscriptions ++
            [{ fresh with created_at := some now, usage := verifyZeroUsage }]
      ({ db with
          subscriptions := subs,
          users := updateUserPlan db.users user_id plan_id now },
       .success plan_id expires_at)

/-- Two `process_payment_idempotent` calls for the same payment id, under
the interleaving in which both calls complete their step-1 ledger lookup
(the first await boundary of the method) before either performs its writes.
Each awaited database call is a scheduling point of the async runtime, so
this is a legal execution of two concurrent requests; the ledger checks
having found nothing, each call then runs its write sequence. -/
def raceBothPassCheck (db : DB) (payment_id user_id plan_id : String)
    (srcA srcB : String) (nowA nowB : Int) : DB × PayResult × PayResult :=
  let a := paymentApply db payment_id user_id plan_id srcA nowA
  let b := paymentApply a.1 payment_id user_id plan_id srcB nowB
  (b.1, a.2, b.2)

/-- N repeated calls of `process_payment_idempotent` with identical
arguments, at the listed instants, folded over the state. -/
def processN (payment_id user_id plan_id payment_source : String) :
    DB → List Int → DB
  | db, [] => db
  | db, t :: ts =>
    processN payment_id user_id plan_id payment_source
      (process_payment_idempotent db payment_id user_id plan_id
        payment_source t).1 ts

/-- Fixture: a user document. -/
def wUser : UserDoc := { id := "u1" }

/-- Fixture: an active starter subscription with 10 days remaining at
instant 0 and nonzero usage counters. -/
def wStarterSub : Subscription :=
  { user_id := "u1", plan_id := "starter", status := "active",
    started_at := some 0, expires_at := some (tdDays 10),
    usage := [("chatbots_count", 2), ("messages_this_month", 40),
              ("file_uploads", 1), ("last_reset", 0)] }

/-- Fixture: a database with one user and no subscription. -/
def wDBempty : DB :=
  { users := [wUser],
    plans := [{ id := "free", name := "Free" },
              { id := "starter", name := "Starter" }] }

/-- Fixture: a database in which user u1 holds `wStarterSub`. -/
def wDBstarter : DB :=
  { subscriptions := [wStarterSub], users := [wUser],
    plans := [{ id := "free", name := "Free" },
              { id := "starter", name := "Starter" }] }

/-- Fixture: an expired free subscription (expired one day before
instant 0). -/
def wExpiredFreeSub : Subscription :=
  { user_id := "u1", plan_id := "free", status := "active",
    started_at := some (tdDays (-7)), expires_at := some (tdDays (-1)),
    usage := [("chatbots_count", 1)] }

/-- Fixture: a lifetime-access subscription with no expiration date, as
written by the admin lifetime toggle. -/
def wLifetimeSub : Subscription :=
  { user_id := "u1", plan_id := "enterprise", status := "active",
    expires_at := none, lifetime_access := true }

/-- Fixture: a database in which u1 holds the lifetime subscription. -/
def wDBlifetime : DB :=
  { subscriptions := [wLifetimeSub], users := [wUser] }

theorem find?_append_of_none {α : Type} (p : α → Bool) (l₁ l₂ : List α)
    (h : l₁.find? p = none) : (l₁ ++ l₂).find? p = l₂.find? p := by
  induction l₁ with
  | nil => simp
  | cons a l ih =>
    rw [List.find?_cons] at h
    rw [List.cons_append, List.find?_cons]
    cases hp : p a with
    | true => simp [hp] at h
    | false => simp only [hp] at h ⊢; exact ih h

theorem process_of_ledger_some (db : DB)
    (payment_id user_id plan_id payment_source : String) (now : Int)
    (e : ProcessedPayment)
    (h : findLedger db.processed_payments payment_id = some e) :
    process_payment_idempotent db payment_id user_id plan_id payment_source
      now = (db, .already_processed e.subscription_result e.processed_at) := by
  simp [process_payment_idempotent, paymentCheck, h]

theorem findLedger_after_apply (db : DB)
    (payment_id user_id plan_id payment_source : String) (now : Int)
    (h : findLedger db.processed_payments payment_id = none) :
    findLedger (paymentApply db payment_id user_id plan_id payment_source
        now).1.processed_payments payment_id =
      some (paymentEntry db payment_id user_id plan_id payment_source now) := by
  unfold paymentApply
  simp only [findLedger] at h ⊢
  rw [find?_append_of_none _ _ _ h]
  simp [paymentEntry]

theorem processN_of_ledger_some (ts : List Int) (db : DB)
    (payment_id user_id plan_id payment_source : String)
    (e : ProcessedPayment)
    (h : findLedger db.processed_payments payment_id = some e) :
    processN payment_id user_id plan_id payment_source db ts = db := by
  induction ts with
  | nil => rfl
  | cons t ts ih =>
    unfold processN
    rw [process_of_ledger_some db payment_id user_id plan_id payment_source
      t e h]
    exact ih

theorem findSub_updateOneUpsertSub (l : List Subscription) (uid : String)
    (f : Subscription → Subscription) (fresh : Subscription)
    (hf : ∀ s, (f s).user_id = uid) (hfresh : fresh.user_id = uid) :
    findSub (updateOneUpsertSub l uid f fresh) uid =
      some ((findSub l uid).elim fresh f) := by
  induction l with
  | nil => simp [findSub, updateOneUpsertSub, hfresh]
  | cons s rest ih =>
    by_cases hs : s.user_id = uid
    · simp [updateOneUpsertSub, findSub, hs, hf]
    · have hs2 : (s.user_id == uid) = false := by simp [hs]
      simp only [updateOneUpsertSub, hs2, Bool.false_eq_true, if_false]
      simp only [findSub, List.find?_cons, hs2] at ih ⊢
      exact ih

theorem ledgerCount_append_fresh (l : List ProcessedPayment)
    (e : ProcessedPayment) (pid : String)
    (h : findLedger l pid = none) (he : e.payment_id = pid) :
    ledgerCount (l ++ [e]) pid = 1 := by
  have hall := List.find?_eq_none.mp h
  unfold ledgerCount
  rw [List.filter_append]
  have hnil : l.filter (fun p => p.payment_id == pid) = [] := by
    rw [List.filter_eq_nil_iff]
    intro a ha
    exact hall a ha
  rw [hnil]
  simp [he]

theorem calc_exp_new (plid : String) (cs : Option Subscription) (now : Int) :
    calculate_expiration "new" plid cs now =
      now + tdDays (if strLower plid = "free" then 6 else 30) := by
  unfold calculate_expiration
  cases cs <;> simp [FREE_PLAN_DURATION, PAID_PLAN_DURATION]

theorem calc_exp_upgrade (plid : String) (cs : Option Subscription) (now : Int) :
    calculate_expiration "upgrade" plid cs now =
      now + tdDays (if strLower plid = "free" then 6 else 30) := by
  unfold calculate_expiration
  cases cs <;> simp [FREE_PLAN_DURATION, PAID_PLAN_DURATION]

theorem calc_exp_admin (plid : String) (cs : Option Subscription) (now : Int) :
    calculate_expiration "admin_change" plid cs now =
      now + tdDays (if strLower plid = "free" then 6 else 30) := by
  unfold calculate_expiration
  cases cs <;> simp [FREE_PLAN_DURATION, PAID_PLAN_DURATION]

theorem calc_exp_renewal_active (plid : String) (cs : Subscription)
    (now e : Int) (he : cs.expires_at = some e) (hfut : now < e) :
    calculate_expiration "renewal" plid (some cs) now = e + tdDays 30 := by
  unfold calculate_expiration
  simp [he, hfut, PAID_PLAN_DURATION]

theorem calc_exp_renewal_stale (plid : String) (cs : Subscription) (now : Int)
    (he : ∀ e, cs.expires_at = some e → e ≤ now) :
    calculate_expiration "renewal" plid (some cs) now = now + tdDays 30 := by
  unfold calculate_expiration
  cases hc : cs.expires_at with
  | none => simp [hc, PAID_PLAN_DURATION]
  | some e =>
    have hng : ¬ (now < e) := not_lt.mpr (he e hc)
    simp [hc, hng, PAID_PLAN_DURATION]

theorem paymentData_of_none (db : DB) (pid uid plid : String) (now : Int)
    (h : findSub db.subscriptions uid = none) :
    paymentData db pid uid plid now =
      { user_id := uid, plan_id := plid, status := "active",
        started_at := now,
        expires_at := now + tdDays (if strLower plid = "free" then 6 else 30),
        razorpay_payment_id := pid, updated_at := now, action_type := "new",
        usage := serviceZeroUsage now } := by
  unfold paymentData
  rw [h]
  simp [calc_exp_new]

theorem paymentData_of_upgrade (db : DB) (pid uid plid : String) (now : Int)
    (cs : Subscription) (h : findSub db.subscriptions uid = some cs)
    (hne : strLower cs.plan_id ≠ strLower plid) :
    paymentData db pid uid plid now =
      { user_id := uid, plan_id := plid, status := "active",
        started_at := now,
        expires_at := now + tdDays (if strLower plid = "free" then 6 else 30),
        razorpay_payment_id := pid, updated_at := now,
        action_type := "upgrade", usage := serviceZeroUsage now } := by
  unfold paymentData
  rw [h]
  have hup : is_plan_upgrade cs.plan_id plid = true := by
    simp [is_plan_upgrade, hne]
  simp [hup, calc_exp_upgrade]

theorem paymentData_of_renewal (db : DB) (pid uid plid : String) (now : Int)
    (cs : Subscription) (h : findSub db.subscriptions uid = some cs)
    (heq : strLower cs.plan_id = strLower plid) :
    paymentData db pid uid plid now =
      { user_id := uid, plan_id := plid, status := "active",
        started_at := now,
        expires_at := calculate_expiration "renewal" plid (some cs) now,
        razorpay_payment_id := pid, updated_at := now,
        action_type := "renewal", usage := cs.usage } := by
  unfold paymentData
  rw [h]
  have hup : is_plan_upgrade cs.plan_id plid = false := by
    simp [is_plan_upgrade, heq]
  simp [hup]

theorem process_of_fresh (db : DB)
    (payment_id user_id plan_id payment_source : String) (now : Int)
    (h : findLedger db.processed_payments payment_id = none) :
    process_payment_idempotent db payment_id user_id plan_id payment_source
        now = paymentApply db payment_id user_id plan_id payment_source now := by
  simp [process_payment_idempotent, paymentCheck, h]

theorem subExpires_after_apply (db : DB)
    (payment_id user_id plan_id payment_source : String) (now : Int) :
    subExpires (paymentApply db payment_id user_id plan_id payment_source
        now).1 user_id =
      some (some (paymentData db payment_id user_id plan_id now).expires_at) := by
  unfold subExpires paymentApply
  rw [findSub_updateOneUpsertSub _ _ _ _
    (fun s => by simp [applyPaymentSet, paymentData])
    (by simp [SubData.toDoc, applyPaymentSet, paymentData])]
  cases findSub db.subscriptions user_id <;>
    simp [applyPaymentSet, SubData.toDoc]

theorem subUsage_after_apply (db : DB)
    (payment_id user_id plan_id payment_source : String) (now : Int) :
    subUsage (paymentApply db payment_id user_id plan_id payment_source
        now).1 user_id =
      some (paymentData db payment_id user_id plan_id now).usage := by
  unfold subUsage paymentApply
  rw [findSub_updateOneUpsertSub _ _ _ _
    (fun s => by simp [applyPaymentSet, paymentData])
    (by simp [SubData.toDoc, applyPaymentSet, paymentData])]
  cases findSub db.subscriptions user_id <;>
    simp [applyPaymentSet, SubData.toDoc]

theorem all_ne_updateOneUpsertSub (l : List Subscription) (uid v : String)
    (f : Subscription → Subscription) (fresh : Subscription)
    (hf : ∀ s, (f s).user_id = uid) (hfresh : fresh.user_id = uid)
    (hv : uid ≠ v)
    (h : l.all (fun t => t.user_id != v) = true) :
    (updateOneUpsertSub l uid f fresh).all (fun t => t.user_id != v) = true := by
  induction l with
  | nil => simp [updateOneUpsertSub, hfresh, hv]
  | cons s rest ih =>
    rw [List.all_cons, Bool.and_eq_true] at h
    by_cases hs : s.user_id = uid
    · have hs2 : (s.user_id == uid) = true := by simp [hs]
      simp only [updateOneUpsertSub, hs2, if_true, List.all_cons,
        Bool.and_eq_true]
      exact ⟨by simp [hf, hv], h.2⟩
    · have hs2 : (s.user_id == uid) = false := by simp [hs]
      simp only [updateOneUpsertSub, hs2, Bool.false_eq_true, if_false,
        List.all_cons, Bool.and_eq_true]
      exact ⟨h.1, ih h.2⟩

theorem noDupUser_updateOneUpsertSub (l : List Subscription) (uid : String)
    (f : Subscription → Subscription) (fresh : Subscription)
    (hf : ∀ s, (f s).user_id = uid) (hfresh : fresh.user_id = uid)
    (h : noDupUser l = true) :
    noDupUser (updateOneUpsertSub l uid f fresh) = true := by
  induction l with
  | nil => simp [updateOneUpsertSub, noDupUser]
  | cons s rest ih =>
    rw [noDupUser, Bool.and_eq_true] at h
    by_cases hs : s.user_id = uid
    · have hs2 : (s.user_id == uid) = true := by simp [hs]
      simp only [updateOneUpsertSub, hs2, if_true, noDupUser,
        Bool.and_eq_true]
      refine ⟨?_, h.2⟩
      rw [hf s, ← hs]
      exact h.1
    · have hs2 : (s.user_id == uid) = false := by simp [hs]
      simp only [updateOneUpsertSub, hs2, Bool.false_eq_true, if_false,
        noDupUser, Bool.and_eq_true]
      refine ⟨?_, ih h.2⟩
      exact all_ne_updateOneUpsertSub rest uid s.user_id f fresh hf hfresh
        (fun he => hs he.symm) h.1

theorem all_ne_updateOneSub (l : List Subscription) (uid v : String)
    (f : Subscription → Subscription)
    (hf : ∀ s, (f s).user_id = uid) (hv : uid ≠ v)
    (h : l.all (fun t => t.user_id != v) = true) :
    (updateOneSub l uid f).all (fun t => t.user_id != v) = true := by
  induction l with
  | nil => simp [updateOneSub]
  | cons s rest ih =>
    rw [List.all_cons, Bool.and_eq_true] at h
    by_cases hs : s.user_id = uid
    · have hs2 : (s.user_id == uid) = true := by simp [hs]
      simp only [updateOneSub, hs2, if_true, List.all_cons, Bool.and_eq_true]
      exact ⟨by simp [hf, hv], h.2⟩
    · have hs2 : (s.user_id == uid) = false := by simp [hs]
      simp only [updateOneSub, hs2, Bool.false_eq_true, if_false,
        List.all_cons, Bool.and_eq_true]
      exact ⟨h.1, ih h.2⟩

theorem noDupUser_updateOneSub (l : List Subscription) (uid : String)
    (f : Subscription → Subscription)
    (hf : ∀ s, (f s).user_id = uid) (h : noDupUser l = true) :
    noDupUser (updateOneSub l uid f) = true := by
  induction l with
  | nil => simp [updateOneSub, noDupUser]
  | cons s rest ih =>
    rw [noDupUser, Bool.and_eq_true] at h
    by_cases hs : s.user_id = uid
    · have hs2 : (s.user_id == uid) = true := by simp [hs]
      simp only [updateOneSub, hs2, if_true, noDupUser, Bool.and_eq_true]
      refine ⟨?_, h.2⟩
      rw [hf s, ← hs]
      exact h.1
    · have hs2 : (s.user_id == uid) = false := by simp [hs]
      simp only [updateOneSub, hs2, Bool.false_eq_true, if_false,
        noDupUser, Bool.and_eq_true]
      refine ⟨?_, ih h.2⟩
      exact all_ne_updateOneSub rest uid s.user_id f hf
        (fun he => hs he.symm) h.1

theorem noDupUser_append_single (l : List Subscription) (doc : Subscription)
    (h : noDupUser l = true)
    (hnew : l.all (fun t => t.user_id != doc.user_id) = true) :
    noDupUser (l ++ [doc]) = true := by
  induction l with
  | nil => simp [noDupUser]
  | cons s rest ih =>
    rw [noDupUser, Bool.and_eq_true] at h
    rw [List.all_cons, Bool.and_eq_true] at hnew
    rw [List.cons_append, noDupUser, Bool.and_eq_true]
    refine ⟨?_, ih h.2 hnew.2⟩
    rw [List.all_append, Bool.and_eq_true]
    refine ⟨h.1, ?_⟩
    simp only [List.all_cons, List.all_nil, Bool.and_true]
    have hne : s.user_id ≠ doc.user_id := by
      have := hnew.1
      simpa using this
    have hns : doc.user_id ≠ s.user_id := fun he => hne (Eq.symm he)
    simp [bne_iff_ne, hns]

theorem findSub_none_all_ne (l : List Subscription) (uid : String)
    (h : findSub l uid = none) :
    l.all (fun t => t.user_id != uid) = true := by
  rw [List.all_eq_true]
  intro t ht
  have := List.find?_eq_none.mp h t ht
  simpa using this

/-- C1: payment processing is idempotent.  For a payment id not yet in the
ledger, after the first `process_payment_idempotent` call the state is a
fixed point of any number of further calls with identical arguments (so the
final subscription state, including expires_at and plan_id, equals that of
a single call), the ledger holds exactly one entry for that payment id, and
every later call returns the already_processed status carrying the
originally recorded subscription snapshot. -/
theorem C1_process_payment_idempotence (db : DB)
    (pid uid plid src : String) (t t2 : Int) (ts : List Int)
    (h : findLedger db.processed_payments pid = none) :
    processN pid uid plid src
        (process_payment_idempotent db pid uid plid src t).1 ts =
      (process_payment_idempotent db pid uid plid src t).1
    ∧ ledgerCount (process_payment_idempotent db pid uid plid src
        t).1.processed_payments pid = 1
    ∧ process_payment_idempotent
        (process_payment_idempotent db pid uid plid src t).1 pid uid plid
        src t2 =
      ((process_payment_idempotent db pid uid plid src t).1,
       PayResult.already_processed (some (paymentData db pid uid plid t))
         t) := by
  rw [process_of_fresh db pid uid plid src t h]
  have hl : findLedger (paymentApply db pid uid plid src
      t).1.processed_payments pid =
      some (paymentEntry db pid uid plid src t) :=
    findLedger_after_apply db pid uid plid src t h
  refine ⟨processN_of_ledger_some ts _ pid uid plid src _ hl, ?_, ?_⟩
  · have hpp : (paymentApply db pid uid plid src t).1.processed_payments =
        db.processed_payments ++ [paymentEntry db pid uid plid src t] := by
      simp [paymentApply]
    rw [hpp]
    exact ledgerCount_append_fresh db.processed_payments _ pid h
      (by simp [paymentEntry])
  · rw [process_of_ledger_some _ pid uid plid src t2 _ hl]
    simp [paymentEntry]

/-- Witness for C1 at a concrete database, with a second call at instant 5
and two further calls at instants 3 and 9. -/
theorem C1_witness :
    findLedger wDBstarter.processed_payments "pay_w1" = none
    ∧ (processN "pay_w1" "u1" "starter" "webhook"
          (process_payment_idempotent wDBstarter "pay_w1" "u1" "starter"
            "webhook" 0).1 [3, 9] =
        (process_payment_idempotent wDBstarter "pay_w1" "u1" "starter"
          "webhook" 0).1
      ∧ ledgerCount (process_payment_idempotent wDBstarter "pay_w1" "u1"
          "starter" "webhook" 0).1.processed_payments "pay_w1" = 1
      ∧ process_payment_idempotent
          (process_payment_idempotent wDBstarter "pay_w1" "u1" "starter"
            "webhook" 0).1 "pay_w1" "u1" "starter" "webhook" 5 =
        ((process_payment_idempotent wDBstarter "pay_w1" "u1" "starter"
            "webhook" 0).1,
         PayResult.already_processed
           (some (paymentData wDBstarter "pay_w1" "u1" "starter" 0)) 0)) :=
  ⟨by decide,
   C1_process_payment_idempotence wDBstarter "pay_w1" "u1" "starter"
     "webhook" 0 5 [3, 9] (by decide)⟩

/-- C2: upgrades and new subscriptions are a fresh start.  For a payment
whose target plan differs case-insensitively from the current plan, or when
no current subscription exists, the stored expiration becomes now plus the
duration of the target plan (6 days for the free plan, 30 otherwise),
independent of any remaining time, and the usage counters are reset to zero
with a fresh last_reset timestamp. -/
theorem C2_upgrade_fresh_start (db : DB) (pid uid plid src : String)
    (now : Int)
    (hfresh : findLedger db.processed_payments pid = none)
    (hdiff : (findSub db.subscriptions uid).all
      (fun cs => strLower cs.plan_id != strLower plid) = true) :
    subExpires (process_payment_idempotent db pid uid plid src now).1 uid =
      some (some (now + tdDays (if strLower plid = "free" then 6 else 30)))
    ∧ subUsage (process_payment_idempotent db pid uid plid src now).1 uid =
      some [("chatbots_count", 0), ("messages_this_month", 0),
            ("file_uploads", 0), ("last_reset", now)] := by
  rw [process_of_fresh db pid uid plid src now hfresh]
  cases hc : findSub db.subscriptions uid with
  | none =>
    refine ⟨?_, ?_⟩
    · rw [subExpires_after_apply, paymentData_of_none db pid uid plid now hc]
    · rw [subUsage_after_apply, paymentData_of_none db pid uid plid now hc]
      simp [serviceZeroUsage]
  | some cs =>
    rw [hc, Option.all_some, bne_iff_ne] at hdiff
    refine ⟨?_, ?_⟩
    · rw [subExpires_after_apply,
        paymentData_of_upgrade db pid uid plid now cs hc hdiff]
    · rw [subUsage_after_apply,
        paymentData_of_upgrade db pid uid plid now cs hc hdiff]
      simp [serviceZeroUsage]

/-- Witness for C2: the starter user upgrades to the free plan at instant
0; the stored expiration is 6 days and the counters reset. -/
theorem C2_witness :
    findLedger wDBstarter.processed_payments "pay_w2" = none
    ∧ (findSub wDBstarter.subscriptions "u1").all
        (fun cs => strLower cs.plan_id != strLower "free") = true
    ∧ (subExpires (process_payment_idempotent wDBstarter "pay_w2" "u1"
          "free" "webhook" 0).1 "u1" =
        some (some (0 + tdDays (if strLower "free" = "free" then 6 else 30)))
      ∧ subUsage (process_payment_idempotent wDBstarter "pay_w2" "u1"
          "free" "webhook" 0).1 "u1" =
        some [("chatbots_count", 0), ("messages_this_month", 0),
              ("file_uploads", 0), ("last_reset", 0)]) :=
  ⟨by decide, by decide,
   C2_upgrade_fresh_start wDBstarter "pay_w2" "u1" "free" "webhook" 0
     (by decide) (by decide)⟩

/-- C3: an active same-plan renewal preserves remaining time.  When the
target plan equals the current plan case-insensitively and the current
expiration is strictly in the future, the stored expiration becomes the old
expiration plus 30 days (the paid-tier duration is added even when the
renewed plan is the free one), and the existing usage counters are kept
unchanged. -/
theorem C3_renewal_preserves_remaining (db : DB)
    (pid uid plid src : String) (now e : Int) (cs : Subscription)
    (hfresh : findLedger db.processed_payments pid = none)
    (hcur : findSub db.subscriptions uid = some cs)
    (hsame : strLower cs.plan_id = strLower plid)
    (he : cs.expires_at = some e) (hfut : now < e) :
    subExpires (process_payment_idempotent db pid uid plid src now).1 uid =
      some (some (e + tdDays 30))
    ∧ subUsage (process_payment_idempotent db pid uid plid src now).1 uid =
      some cs.usage := by
  rw [process_of_fresh db pid uid plid src now hfresh]
  refine ⟨?_, ?_⟩
  · rw [subExpires_after_apply,
      paymentData_of_renewal db pid uid plid now cs hcur hsame]
    simp [calc_exp_renewal_active plid cs now e he hfut]
  · rw [subUsage_after_apply,
      paymentData_of_renewal db pid uid plid now cs hcur hsame]

/-- Witness for C3: the starter user renews starter at instant 0 with 10
days remaining; the stored expiration is the old one plus 30 days and the
usage counters are untouched. -/
theorem C3_witness :
    findLedger wDBstarter.processed_payments "pay_w3" = none
    ∧ findSub wDBstarter.subscriptions "u1" = some wStarterSub
    ∧ strLower wStarterSub.plan_id = strLower "Starter"
    ∧ wStarterSub.expires_at = some (tdDays 10)
    ∧ (0 : Int) < tdDays 10
    ∧ (subExpires (process_payment_idempotent wDBstarter "pay_w3" "u1"
          "Starter" "webhook" 0).1 "u1" =
        some (some (tdDays 10 + tdDays 30))
      ∧ subUsage (process_payment_idempotent wDBstarter "pay_w3" "u1"
          "Starter" "webhook" 0).1 "u1" = some wStarterSub.usage) :=
  ⟨by decide, by decide, by decide, by decide, by decide,
   C3_renewal_preserves_remaining wDBstarter "pay_w3" "u1" "Starter"
     "webhook" 0 (tdDays 10) wStarterSub (by decide) (by decide)
     (by decide) (by decide) (by decide)⟩

/-- C9: an admin plan change is a fresh start that keeps usage.  The stored
expiration becomes now plus the duration of the new plan (6 days for free,
30 otherwise) regardless of the prior plan or remaining time; the usage
counters are the previous ones when a subscription existed (and the zeroed
dict otherwise); and the audit fields record the admin id and the reason. -/
theorem C9_admin_change_fresh_keeps_usage (db : DB)
    (uid plid admin reason : String) (now : Int) :
    subExpires (admin_change_plan db uid plid admin reason now).1 uid =
      some (some (now + tdDays (if strLower plid = "free" then 6 else 30)))
    ∧ subUsage (admin_change_plan db uid plid admin reason now).1 uid =
      some ((findSub db.subscriptions uid).elim (serviceZeroUsage now)
        (·.usage))
    ∧ (findSub (admin_change_plan db uid plid admin reason
        now).1.subscriptions uid).map (·.admin_changed_by) =
      some (some admin)
    ∧ (findSub (admin_change_plan db uid plid admin reason
        now).1.subscriptions uid).map (·.admin_change_reason) =
      some (some reason) := by
  simp only [admin_change_plan, subExpires, subUsage]
  rw [findSub_updateOneUpsertSub db.subscriptions uid _ _
    (fun s => rfl) rfl]
  rw [calc_exp_admin]
  cases findSub db.subscriptions uid <;>
    simp [adminSet, FREE_PLAN_DURATION, PAID_PLAN_DURATION]

/-- C4 counterexample: renewing the expired free plan at instant 0 yields
now plus 30 days, not now plus the 6-day free duration the claim states
for the target plan. -/
theorem C4_counterexample :
    strLower wExpiredFreeSub.plan_id = strLower "free"
    ∧ calculate_expiration "renewal" "free" (some wExpiredFreeSub) 0 =
      0 + tdDays 30
    ∧ ¬ (calculate_expiration "renewal" "free" (some wExpiredFreeSub) 0 =
      0 + tdDays (if strLower "free" = "free" then 6 else 30)) := by
  refine ⟨by decide, by decide, by decide⟩

/-- C4 amended: for a renewal of the current plan (case-insensitive match)
whose expiration is absent or not strictly in the future,
calculate_expiration returns now plus 30 days (the paid-tier constant)
regardless of the target plan, free included. -/
theorem C4_expired_renewal_thirty_days (plid : String) (cs : Subscription)
    (now : Int) (hsame : strLower cs.plan_id = strLower plid)
    (hstale : cs.expires_at.all (fun e => decide (e ≤ now)) = true) :
    calculate_expiration "renewal" plid (some cs) now = now + tdDays 30 := by
  refine calc_exp_renewal_stale plid cs now ?_
  intro e he
  rw [he, Option.all_some] at hstale
  exact of_decide_eq_true hstale

/-- Witness for the amended C4 at the concrete expired free subscription. -/
theorem C4_witness :
    strLower wExpiredFreeSub.plan_id = strLower "free"
    ∧ wExpiredFreeSub.expires_at.all (fun e => decide (e ≤ (0:Int))) = true
    ∧ calculate_expiration "renewal" "free" (some wExpiredFreeSub) 0 =
      0 + tdDays 30 :=
  ⟨by decide, by decide,
   C4_expired_renewal_thirty_days "free" wExpiredFreeSub 0 (by decide)
     (by decide)⟩

/-- C6 counterexample: from a legitimate state in which user u1 already
holds a subscription, `create_subscription` blindly insert_ones a second
document for the same user, breaking the at-most-one-subscription-per-user
invariant. -/
theorem C6_counterexample :
    noDupUser wDBstarter.subscriptions = true
    ∧ noDupUser (create_subscription wDBstarter "u1" "starter"
        0).1.subscriptions = false := by
  refine ⟨by decide, by decide⟩

/-- C6 amended: `process_payment_idempotent` and `admin_change_plan` (which
upsert keyed on user_id) and the verify_payment handler path preserve the
at-most-one-subscription-per-user invariant from any state satisfying it;
`create_subscription` preserves it exactly when the target user has no
existing subscription document. -/
theorem C6_at_most_one_subscription (db : DB)
    (pid uid uid2 plid src admin reason rpid rsid : String) (now : Int)
    (h : noDupUser db.subscriptions = true)
    (h2 : findSub db.subscriptions uid2 = none) :
    noDupUser (process_payment_idempotent db pid uid plid src
        now).1.subscriptions = true
    ∧ noDupUser (admin_change_plan db uid plid admin reason
        now).1.subscriptions = true
    ∧ noDupUser (create_subscription db uid2 plid now).1.subscriptions = true
    ∧ noDupUser (verify_payment db uid rpid rsid plid
        now).1.subscriptions = true := by
  refine ⟨?_, ?_, ?_, ?_⟩
  · unfold process_payment_idempotent
    cases hc : paymentCheck db pid with
    | some r => exact h
    | none =>
      simp only [paymentApply]
      exact noDupUser_updateOneUpsertSub db.subscriptions uid _ _
        (fun s => by simp [applyPaymentSet, paymentData])
        (by simp [SubData.toDoc, applyPaymentSet, paymentData]) h
  · simp only [admin_change_plan]
    exact noDupUser_updateOneUpsertSub db.subscriptions uid _ _
      (fun s => rfl) rfl h
  · simp only [create_subscription]
    refine noDupUser_append_single db.subscriptions _ h ?_
    simpa using findSub_none_all_ne db.subscriptions uid2 h2
  · unfold verify_payment
    cases hf1 : db.subscriptions.find?
        (fun s => s.razorpay_payment_id == some rpid) with
    | some e => exact h
    | none =>
      cases hf2 : db.plans.find? (fun p => p.id == plid) with
      | none => exact h
      | some pl =>
        simp only
        cases hf3 : findSub db.subscriptions uid with
        | some es =>
          simp only [hf3]
          exact noDupUser_updateOneSub db.subscriptions uid _
            (fun s => rfl) h
        | none =>
          simp only [hf3]
          refine noDupUser_append_single db.subscriptions _ h ?_
          simpa using findSub_none_all_ne db.subscriptions uid hf3

/-- Witness for the amended C6 at the concrete one-subscription database,
processing a payment and an admin change for u1, a signup for the fresh
user u2, and a verify_payment call for u1. -/
theorem C6_witness :
    noDupUser wDBstarter.subscriptions = true
    ∧ findSub wDBstarter.subscriptions "u2" = none
    ∧ (noDupUser (process_payment_idempotent wDBstarter "pay_w6" "u1"
          "free" "webhook" 0).1.subscriptions = true
      ∧ noDupUser (admin_change_plan wDBstarter "u1" "free" "admin1" "fix"
          0).1.subscriptions = true
      ∧ noDupUser (create_subscription wDBstarter "u2" "free"
          0).1.subscriptions = true
      ∧ noDupUser (verify_payment wDBstarter "u1" "pay_w6b" "sub_w6"
          "free" 0).1.subscriptions = true) :=
  ⟨by decide, by decide,
   C6_at_most_one_subscription wDBstarter "pay_w6" "u1" "u2" "free"
     "webhook" "admin1" "fix" "pay_w6b" "sub_w6" 0 (by decide) (by decide)⟩

/-- C7 counterexample: the plan id no_such_plan resolves to no stored Plan,
yet the duration computation does not fail and process_payment does not
reject the operation: it treats the unknown plan as a 30-day paid plan and
writes the subscription and the ledger entry. -/
theorem C7_counterexample :
    wDBempty.plans.find? (fun p => p.id == "no_such_plan") = none
    ∧ (process_payment_idempotent wDBempty "pay_w7" "u1" "no_such_plan"
        "webhook" 0).2.isProcessed = true
    ∧ ledgerCount (process_payment_idempotent wDBempty "pay_w7" "u1"
        "no_such_plan" "webhook" 0).1.processed_payments "pay_w7" = 1
    ∧ subExpires (process_payment_idempotent wDBempty "pay_w7" "u1"
        "no_such_plan" "webhook" 0).1 "u1" = some (some (tdDays 30)) := by
  refine ⟨by decide, by decide, by decide, by decide⟩

/-- C7 amended: the duration computation and process_payment never consult
the plans store and never fail.  A plan id that resolves to no stored Plan
is accepted; when its lowercase form is not free it is treated as a 30-day
paid plan, and the subscription and ledger writes complete normally. -/
theorem C7_unknown_plan_accepted (db : DB) (pid uid plid src : String)
    (now : Int)
    (hfresh : findLedger db.processed_payments pid = none)
    (hunknown : db.plans.find? (fun p => p.id == plid) = none)
    (hnew : findSub db.subscriptions uid = none)
    (hnotfree : strLower plid ≠ "free") :
    (process_payment_idempotent db pid uid plid src now).2.isProcessed =
      true
    ∧ subExpires (process_payment_idempotent db pid uid plid src now).1
        uid = some (some (now + tdDays 30))
    ∧ ledgerCount (process_payment_idempotent db pid uid plid src
        now).1.processed_payments pid = 1 := by
  rw [process_of_fresh db pid uid plid src now hfresh]
  refine ⟨by simp [paymentApply, PayResult.isProcessed], ?_, ?_⟩
  · rw [subExpires_after_apply, paymentData_of_none db pid uid plid now
      hnew]
    simp [if_neg hnotfree]
  · have hpp : (paymentApply db pid uid plid src now).1.processed_payments =
        db.processed_payments ++ [paymentEntry db pid uid plid src now] := by
      simp [paymentApply]
    rw [hpp]
    exact ledgerCount_append_fresh db.processed_payments _ pid hfresh
      (by simp [paymentEntry])

/-- Witness for the amended C7 at the concrete plan id no_such_plan. -/
theorem C7_witness :
    findLedger wDBempty.processed_payments "pay_w7b" = none
    ∧ wDBempty.plans.find? (fun p => p.id == "no_such_plan") = none
    ∧ findSub wDBempty.subscriptions "u1" = none
    ∧ strLower "no_such_plan" ≠ "free"
    ∧ ((process_payment_idempotent wDBempty "pay_w7b" "u1" "no_such_plan"
          "webhook" 0).2.isProcessed = true
      ∧ subExpires (process_payment_idempotent wDBempty "pay_w7b" "u1"
          "no_such_plan" "webhook" 0).1 "u1" = some (some (0 + tdDays 30))
      ∧ ledgerCount (process_payment_idempotent wDBempty "pay_w7b" "u1"
          "no_such_plan" "webhook" 0).1.processed_payments "pay_w7b" = 1) :=
  ⟨by decide, by decide, by decide, by decide,
   C7_unknown_plan_accepted wDBempty "pay_w7b" "u1" "no_such_plan"
     "webhook" 0 (by decide) (by decide) (by decide) (by decide)⟩

/-- C8 counterexample: for a stored subscription with lifetime_access true
and a null expires_at, check_subscription_status reports is_expired true,
where the claim requires is_expired false unconditionally under
lifetime_access. -/
theorem C8_counterexample :
    (findSub wDBlifetime.subscriptions "u1").map (·.lifetime_access) =
      some true
    ∧ (findSub wDBlifetime.subscriptions "u1").map (·.expires_at) =
      some none
    ∧ (check_subscription_status wDBlifetime "u1" 0).is_expired = true := by
  refine ⟨by decide, by decide, by decide⟩

/-- C8 amended: for a stored subscription, check_subscription_status
reports is_expired equal to the comparison of expires_at with now when
expires_at is present, and true when expires_at is null; the
lifetime_access flag is never consulted. -/
theorem C8_is_expired_ignores_lifetime (db : DB) (uid : String) (now : Int)
    (s : Subscription) (hfind : findSub db.subscriptions uid = some s) :
    (check_subscription_status db uid now).is_expired =
      (match s.expires_at with
       | none => true
       | some e => decide (e ≤ now)) := by
  unfold check_subscription_status
  rw [hfind]
  cases hs : s.expires_at <;> simp [hs]

/-- Witness for the amended C8 at the concrete lifetime subscription. -/
theorem C8_witness :
    findSub wDBlifetime.subscriptions "u1" = some wLifetimeSub
    ∧ (check_subscription_status wDBlifetime "u1" 0).is_expired =
      (match wLifetimeSub.expires_at with
       | none => true
       | some e => decide (e ≤ (0 : Int))) :=
  ⟨by decide,
   C8_is_expired_ignores_lifetime wDBlifetime "u1" 0 wLifetimeSub
     (by decide)⟩

/-- C5: the verify_payment handler does not route through
process_payment_idempotent.  At a concrete state with no subscription and a
resolvable free plan, the handler computes a 30-day expiration by its own
inline arithmetic and writes the subscriptions store directly while leaving
the processed_payments ledger empty, whereas process_payment for the same
extracted triple yields a 6-day free expiration and one ledger row — the
two subscription-state effects differ. -/
theorem C5_handler_bypasses_service :
    (verify_payment wDBempty "u1" "pay_w5" "sub_w5" "free" 0).2 =
      VerifyResult.success "free" (tdDays 30)
    ∧ subExpires (verify_payment wDBempty "u1" "pay_w5" "sub_w5" "free"
        0).1 "u1" = some (some (tdDays 30))
    ∧ (verify_payment wDBempty "u1" "pay_w5" "sub_w5" "free"
        0).1.processed_payments = []
    ∧ subExpires (process_payment_idempotent wDBempty "pay_w5" "u1" "free"
        "verify_payment" 0).1 "u1" = some (some (tdDays 6))
    ∧ ledgerCount (process_payment_idempotent wDBempty "pay_w5" "u1"
        "free" "verify_payment" 0).1.processed_payments "pay_w5" = 1 := by
  refine ⟨by decide, by decide, by decide, by decide, by decide⟩

/-- C10: two concurrent process_payment calls with the same payment id are
not serialized.  Under the legal interleaving in which both calls pass the
step-1 ledger check before either writes, a single payment produces two
subscription mutations (the second call sees the first write as a same-plan
renewal and extends again, to 60 days), two ledger rows for the one payment
id, and the two returned results differ — no DuplicatePaymentError exists
in the code to collapse the loser onto the winner. -/
theorem C10_race_double_extension :
    paymentCheck wDBempty "pay_w10" = none
    ∧ ledgerCount (raceBothPassCheck wDBempty "pay_w10" "u1" "starter"
        "webhook" "callback" 0 0).1.processed_payments "pay_w10" = 2
    ∧ subExpires (raceBothPassCheck wDBempty "pay_w10" "u1" "starter"
        "webhook" "callback" 0 0).1 "u1" = some (some (tdDays 60))
    ∧ ¬ ((raceBothPassCheck wDBempty "pay_w10" "u1" "starter" "webhook"
          "callback" 0 0).2.1 =
        (raceBothPassCheck wDBempty "pay_w10" "u1" "starter" "webhook"
          "callback" 0 0).2.2) := by
  refine ⟨by decide, by decide, by decide, by decide⟩
